import Mathlib

/-!
Shallow embedding of the pysigrok xSPI-flash decoder
(`pysigrok_xspiflash.py`) and proofs about its transaction state machine
and command interpreter.

The embedding follows the source module closely:

* `CONTINUE_COMMANDS`, `DATA_COMMANDS`, `CONTROL_COMMANDS`, `EN4B`, `EX4B`
  mirror the module-level tables.
* `DState` collects the `Decoder` instance fields that the decode loop
  reads or writes, together with the persistent Python locals of
  `Decoder.decode` (`start_address`, `end_address`, `num_data_bytes`,
  `message`) which survive from one loop iteration to the next.
* `step` is one iteration of the inner clock loop (source lines 166-210),
  `txnStart` is the transaction setup (lines 144-161), `txnInit` adds the
  unconditional `self._clock_count = 0` of line 164, `interpret` is the
  command-interpretation tail of the loop body (lines 212-253) and
  `decodeTransaction` glues them together for one chip-select window.
* `put_bytes` mirrors the helper of the same name (lines 131-138); note
  that every call to it inside `decode` is commented out in the source.

Machine integers are modelled as `Nat` (Python ints are unbounded, and the
bit accumulators are reset at byte boundaries); the one signed quantity,
`num_data_bytes`, is an `Int` exactly as in Python, where it can go
negative.  A `NameError` raised by the f-string on line 237 when
`start_address` has never been assigned is modelled by `Except.error`.
-/

deriving instance DecidableEq for Except

namespace XSpiFlash

/-- Lowercase hexadecimal digit, as produced by Python's `"x"` format. -/
def hexDigitLower (n : Nat) : Char :=
  if n < 10 then Char.ofNat (48 + n) else Char.ofNat (87 + n)

/-- Uppercase hexadecimal digit, as produced by Python's `"X"` format. -/
def hexDigitUpper (n : Nat) : Char :=
  if n < 10 then Char.ofNat (48 + n) else Char.ofNat (55 + n)

/-- Hexadecimal digit list of `n` (at least one digit, most significant
first), parameterised by the digit renderer.  Structural fuel keeps the
definition kernel-reducible; `fuel = n + 1` always suffices because the
recursion divides by 16. -/
def hexCharsAux (f : Nat → Char) : Nat → Nat → List Char
  | 0, _ => []
  | fuel + 1, n =>
    if n < 16 then [f n]
    else hexCharsAux f fuel (n / 16) ++ [f (n % 16)]

/-- `n` in lowercase hexadecimal, no padding (Python `"{:x}".format(n)`). -/
def natToHexLower (n : Nat) : String :=
  String.mk (hexCharsAux hexDigitLower (n + 1) n)

/-- `n` in uppercase hexadecimal, no padding (Python `f"{n:X}"`). -/
def natToHexUpper (n : Nat) : String :=
  String.mk (hexCharsAux hexDigitUpper (n + 1) n)

/-- Left-pad a string with `'0'` to total length `w`. -/
def padZeros (w : Nat) (s : String) : String :=
  String.mk (List.replicate (w - s.length) '0') ++ s

/-- Python's `("{:0" ++ toString w ++ "x}").format(x)`: zero-padded
lowercase hexadecimal of total field width `w`; for a negative value the
sign is printed first and counts towards the width. -/
def pyHexPad (w : Nat) (x : Int) : String :=
  if x < 0 then "-" ++ padZeros (w - 1) (natToHexLower x.natAbs)
  else padZeros w (natToHexLower x.toNat)

/-- Python's `'%02X' % b`. -/
def hexByte (b : Nat) : String :=
  padZeros 2 (natToHexUpper b)

/-- `CONTINUE_COMMANDS` table: command byte to dummy clock count. -/
def CONTINUE_COMMANDS (c : Nat) : Option Nat :=
  if c = 0x6b then some 8
  else if c = 0xe7 then some 2
  else if c = 0xeb then some 4
  else none

/-- `DATA_COMMANDS` table: command byte to human-readable name. -/
def DATA_COMMANDS (c : Nat) : Option String :=
  if c = 0x03 then some "Read"
  else if c = 0x0b then some "Fast Read"
  else if c = 0x5b then some "Read SFDP"
  else if c = 0x6b then some "Quad-Output Fast Read"
  else if c = 0x9e then some "Read JEDEC ID"
  else if c = 0x9f then some "Read JEDEC ID"
  else if c = 0xe7 then some "Quad Word Read"
  else if c = 0xeb then some "Quad Read"
  else if c = 0x02 then some "Page Program"
  else if c = 0x32 then some "Quad Page Program"
  else none

/-- `EN4B`: enable-4-byte-address command byte. -/
def EN4B : Nat := 0xB7

/-- `EX4B`: exit-4-byte-address command byte. -/
def EX4B : Nat := 0xE9

/-- `CONTROL_COMMANDS` table: command byte to human-readable name. -/
def CONTROL_COMMANDS (c : Nat) : Option String :=
  if c = 0x01 then some "Write Status Register 1"
  else if c = 0x06 then some "Write Enable"
  else if c = 0x04 then some "Write Disable"
  else if c = 0x05 then some "Read Status Register"
  else if c = 0x35 then some "Read Status Register 2"
  else if c = 0x5A then some "Read SFDP Mode"
  else if c = 0x75 then some "Program Suspend"
  else if c = 0xAB then some "Release Power-down / Device ID"
  else if c = EN4B then some "Enable 4 Byte Address"
  else if c = EX4B then some "Exit 4 Byte Address"
  else none

/-- One output of `self.put`: a binary-channel byte, a python-channel
`DATA` tuple, or an `out_ann` record `[annType, texts]`. -/
inductive Event where
  | binary (ss es channel value : Nat)
  | pythonData (ss es miso mosi : Nat)
  | outAnn (ss es annType : Nat) (texts : List String)
deriving DecidableEq, Repr

/-- `Decoder.put_bytes` (source lines 131-138): the five `self.put`
calls it performs, in order. -/
def put_bytes (ss es : Nat) (mosi : Nat := 0) (miso : Nat := 0) :
    List Event :=
  [Event.binary ss es 0 miso,
   Event.binary ss es 1 mosi,
   Event.pythonData ss es miso mosi,
   Event.outAnn ss es 0 [hexByte miso],
   Event.outAnn ss es 1 [hexByte mosi]]

/-- One clock-edge sample: the four data-line values (0 or 1) returned by
`self.wait` while chip-select stays active. -/
structure Sample where
  miso : Nat
  mosi : Nat
  d2 : Nat
  d3 : Nat
deriving DecidableEq, Repr

/-- The 4-bit lane value `d3 << 3 | d2 << 2 | miso << 1 | mosi`
(source line 187). -/
def quadBits (p : Sample) : Nat :=
  p.d3 <<< 3 ||| p.d2 <<< 2 ||| p.miso <<< 1 ||| p.mosi

/-- Decoder state: the `Decoder` instance fields driving `decode`,
plus the loop-persistent Python locals of `decode`
(`start_address`, `end_address`, `num_data_bytes`, `message`), which in
Python survive from one `while True` iteration to the next and are
`none` before their first assignment. -/
structure DState where
  address_bytes : Nat
  address_format_width : Nat
  min_address : Nat
  max_address : Nat
  command : Nat
  quad_start : Option Nat
  continuous : Bool
  dummy : Nat
  clock_count : Nat
  mosi_out : Nat
  miso_in : Nat
  quad_data : Nat
  mosi_data : List Nat
  miso_data : List Nat
  start_address : Option String
  end_address : Option String
  num_data_bytes : Option Int
  message : String
deriving DecidableEq, Repr

/-- `Decoder.reset` restricted to the fields of `DState`, taking the
relevant option values (`address_bytes`, `min_address`, `max_address`). -/
def resetState (ab mn mx : Nat) : DState :=
  { address_bytes := ab
    address_format_width := 2 * ab
    min_address := mn
    max_address := mx
    command := 0
    quad_start := none
    continuous := false
    dummy := 0
    clock_count := 0
    mosi_out := 0
    miso_in := 0
    quad_data := 0
    mosi_data := []
    miso_data := []
    start_address := none
    end_address := none
    num_data_bytes := none
    message := "" }

/-- Transaction setup, source lines 144-161: clear the byte sequences and
`_quad_data`; when continuous-read mode is inactive also reset command,
quad start, dummy count and the bit accumulators; when it is active set
`_clock_count` to 8 and pre-seed the byte sequences with the carried-over
command byte. -/
def txnStart (s : DState) : DState :=
  let s := { s with quad_data := 0, mosi_data := [], miso_data := [] }
  if !s.continuous then
    { s with command := 0, quad_start := none, dummy := 0,
             mosi_out := 0, miso_in := 0 }
  else
    { s with clock_count := 8,
             miso_data := s.miso_data ++ [0],
             mosi_data := s.mosi_data ++ [s.command] }

/-- Transaction setup followed by the unconditional
`self._clock_count = 0` of source line 164, which runs after the first
`wait` regardless of the continuous-read branch. -/
def txnInit (s : DState) : DState :=
  { txnStart s with clock_count := 0 }

/-- One iteration of the inner clock loop, source lines 166-210: single-bit
accumulation before the quad start point, quad-nibble accumulation after
it, the continuation-signature check at clock count 15, and the trailing
`self._clock_count += 1`. -/
def step (s : DState) (p : Sample) : DState :=
  if s.quad_start = none ∨ s.clock_count < s.quad_start.getD 0 then
    let mosiOut := s.mosi_out <<< 1 ||| p.mosi
    let misoIn := s.miso_in <<< 1 ||| p.miso
    if s.clock_count % 8 = 7 then
      if s.clock_count = 7 then
        match CONTINUE_COMMANDS mosiOut with
        | some d =>
          { s with command := mosiOut, quad_start := some 8, dummy := d,
                   mosi_data := s.mosi_data ++ [mosiOut],
                   miso_data := s.miso_data ++ [misoIn],
                   mosi_out := 0, miso_in := 0,
                   clock_count := s.clock_count + 1 }
        | none =>
          { s with command := mosiOut,
                   mosi_data := s.mosi_data ++ [mosiOut],
                   miso_data := s.miso_data ++ [misoIn],
                   mosi_out := 0, miso_in := 0,
                   clock_count := s.clock_count + 1 }
      else
        { s with mosi_data := s.mosi_data ++ [mosiOut],
                 miso_data := s.miso_data ++ [misoIn],
                 mosi_out := 0, miso_in := 0,
                 clock_count := s.clock_count + 1 }
    else
      { s with mosi_out := mosiOut, miso_in := misoIn,
               clock_count := s.clock_count + 1 }
  else
    let qd := s.quad_data <<< 4 ||| (quadBits p &&& 0xf)
    if s.clock_count % 2 = 1 then
      let s1 :=
        if ¬ (15 < s.clock_count ∧ s.clock_count ≤ 15 + s.dummy) then
          { s with mosi_data := s.mosi_data ++ [qd],
                   miso_data := s.miso_data ++ [0] }
        else
          { s with mosi_data := s.mosi_data ++ [0],
                   miso_data := s.miso_data ++ [qd] }
      let s2 :=
        if (CONTINUE_COMMANDS s.command).isSome ∧ s.clock_count = 15 then
          { s1 with continuous := decide (qd &&& 0xf0 = 0xa0) }
        else s1
      { s2 with quad_data := 0, clock_count := s.clock_count + 1 }
    else
      { s with quad_data := qd, clock_count := s.clock_count + 1 }

/-- Run the inner clock loop over a list of clock-edge samples. -/
def runSteps (s : DState) (l : List Sample) : DState :=
  l.foldl step s

/-- One whole chip-select window of clocking: transaction setup followed
by the clock loop over the samples seen before chip-select deasserts. -/
def runTransaction (s : DState) (l : List Sample) : DState :=
  runSteps (txnInit s) l

/-- The big-endian address: `for i in range(ab): fa = (fa << 8) + mosi[1+i]`
(source lines 222-225). -/
def frameAddress (ab : Nat) (mosi : List Nat) : Nat :=
  ((mosi.drop 1).take ab).foldl (fun a b => (a <<< 8) + b) 0

/-- The command-interpretation tail of the loop body, source lines
214-253.  Returns the updated state and the annotations actually emitted
by the final `self.put` (line 253, guarded by `output_type != 5`).
`Except.error` models the `NameError` raised by the f-string on line 237
when the loop-persistent locals have never been assigned. -/
def interpret (ss es : Nat) (s : DState) :
    Except String (DState × List Event) :=
  let command := s.mosi_data.headD 0
  match DATA_COMMANDS command with
  | some nm =>
    if s.mosi_data.length < 1 + s.address_bytes then
      Except.ok ({ s with message := "Error!" },
        [Event.outAnn ss es 7 ["Error!"]])
    else
      let fa := frameAddress s.address_bytes s.mosi_data
      if s.min_address ≤ fa ∧ fa ≤ s.max_address then
        let startAddr := pyHexPad s.address_format_width (fa : Int)
        let nonData : Int :=
          1 + (if nm = "Fast Read" then 1 else 0)
            + (if nm = "Quad Read" then 2 else 0)
        let numData : Int :=
          (s.mosi_data.length : Int) - (s.address_bytes : Int) - nonData
        let endAddr := pyHexPad s.address_format_width ((fa : Int) + numData - 1)
        let msg := nm ++ " 0x" ++ startAddr ++ " - 0x" ++ endAddr
          ++ " (" ++ toString numData ++ " data bytes)"
        Except.ok ({ s with start_address := some startAddr,
                            end_address := some endAddr,
                            num_data_bytes := some numData,
                            message := msg },
          [Event.outAnn ss es 6 [msg]])
      else
        match s.start_address, s.end_address, s.num_data_bytes with
        | some st, some en, some num =>
          let msg := nm ++ " 0x" ++ st ++ " - 0x" ++ en
            ++ " (" ++ toString num ++ " data bytes)"
          Except.ok ({ s with message := msg },
            [Event.outAnn ss es 6 [msg]])
        | _, _, _ => Except.error "NameError"
  | none =>
    let msg :=
      match CONTROL_COMMANDS command with
      | some nm => nm
      | none => "0x" ++ natToHexUpper command
    let s := { s with message := msg }
    let s :=
      if command = EN4B then
        { s with address_bytes := 4, address_format_width := 2 * 4 }
      else if command = EX4B then
        { s with address_bytes := 3, address_format_width := 2 * 3 }
      else s
    Except.ok (s, [])

/-- One full transaction of `decode`: run the clock loop, then either skip
interpretation when a byte sequence is empty
(`if not self._miso_data or not self._mosi_data: continue`, line 212) or
hand the frozen transaction to the interpreter. -/
def decodeTransaction (ss es : Nat) (s : DState) (l : List Sample) :
    Except String (DState × List Event) :=
  let t := runTransaction s l
  if t.miso_data = [] ∨ t.mosi_data = [] then Except.ok (t, [])
  else interpret ss es t

/-- The `non_data_bytes` count of source lines 228-234: the command byte
plus one dummy byte for "Fast Read" (0x0B) and two for "Quad Read"
(0xEB). -/
def overheadBytes (nm : String) : Int :=
  1 + (if nm = "Fast Read" then 1 else 0) + (if nm = "Quad Read" then 2 else 0)

/-- `num_data_bytes` of source line 235: total MOSI bytes minus address
width minus the non-data overhead (an `Int`: Python lets it go
negative). -/
def dataByteCount (s : DState) (nm : String) : Int :=
  (s.mosi_data.length : Int) - (s.address_bytes : Int) - overheadBytes nm

/-! Concrete sample sequences and states used by witnesses and
counterexamples. -/

/-- A single-bit clock edge carrying one MOSI bit (all other lines low). -/
def sample1 (m : Nat) : Sample :=
  { miso := 0, mosi := m, d2 := 0, d3 := 0 }

/-- The eight command-phase clock edges whose MOSI bits spell the byte
`c`, most significant bit first. -/
def cmdSamples (c : Nat) : List Sample :=
  (List.range 8).map fun i => sample1 (c >>> (7 - i) &&& 1)

/-- A 16-edge Quad Read (0xEB) transaction: 8 single-bit command edges,
then 8 quad edges whose nibble at clock 14 is 0xA (the continuation
signature), so decoding it turns continuous-read mode on. -/
def samplesEB : List Sample :=
  cmdSamples 0xEB ++
    [sample1 0, sample1 0, sample1 0, sample1 0, sample1 0, sample1 0,
     { miso := 1, mosi := 0, d2 := 0, d3 := 1 }, sample1 0]

/-- Freshly reset decoder with the default options
(`address_bytes = 3`, full 32-bit filter range). -/
def idleState : DState := resetState 3 0 0xffffffff

/-- The decoder state after one full `samplesEB` transaction's clocking:
continuous-read mode is active with carried command 0xEB. -/
def contState : DState := runTransaction idleState samplesEB

/-- A frozen Read transaction: command 0x03, address bytes
0x00 0x10 0x00, four data bytes, with the default session options. -/
def readTxn : DState :=
  { idleState with
    mosi_data := [0x03, 0x00, 0x10, 0x00, 1, 2, 3, 4],
    miso_data := [0, 0, 0, 0, 0, 0, 0, 0] }

/-- A truncated Read transaction: command 0x03 followed by a single
address byte (fewer than `1 + address_bytes` MOSI bytes). -/
def truncTxn : DState :=
  { idleState with mosi_data := [0x03, 0x10], miso_data := [0, 0] }

/-- Session whose address filter is `[0, 0x1fff]`. -/
def filterState : DState := resetState 3 0 0x1fff

/-- An in-filter Read transaction under `filterState`
(start address 0x1000). -/
def inFilterTxn : DState :=
  { filterState with
    mosi_data := [0x03, 0x00, 0x10, 0x00, 1, 2, 3, 4],
    miso_data := [0, 0, 0, 0, 0, 0, 0, 0] }

/-- The full result of interpreting `inFilterTxn`. -/
def interpInFilter : DState × List Event :=
  (interpret 0 1 inFilterTxn).toOption.getD (filterState, [])

/-- The state `interpret` leaves behind after `inFilterTxn` (its
loop-persistent locals now hold that transaction's values). -/
def afterInFilter : DState := interpInFilter.1

/-- An out-of-filter Read transaction (start address 0x3000 > 0x1fff)
arriving after `inFilterTxn`. -/
def outOfFilterTxn : DState :=
  { afterInFilter with
    mosi_data := [0x03, 0x00, 0x30, 0x00, 5, 6, 7, 8],
    miso_data := [0, 0, 0, 0, 0, 0, 0, 0] }

/-- A frozen Enable-4-Byte-Address transaction under default options. -/
def en4bTxn : DState :=
  { idleState with mosi_data := [EN4B], miso_data := [0] }

/-- The session state after interpreting `en4bTxn`. -/
def afterEN4B : DState :=
  ((interpret 0 1 en4bTxn).toOption.map Prod.fst).getD idleState

/-- A Read transaction arriving after `en4bTxn`: command 0x03, four
address bytes 0x00 0x00 0x10 0x00, one data byte. -/
def readAfterEN4B : DState :=
  { afterEN4B with
    mosi_data := [0x03, 0x00, 0x00, 0x10, 0x00, 9],
    miso_data := [0, 0, 0, 0, 0, 0] }

/-- The result of decoding a zero-edge chip-select window while
continuous-read mode is active: the pre-seeded command byte is
interpreted as a truncated data command. -/
def contEmptyResult : DState × List Event :=
  (decodeTransaction 0 1 contState []).toOption.getD (contState, [])

/-- The state reached after the first 15 clock edges of `samplesEB`:
clock count 15, command 0xEB, quad start 8, quad nibble 0xA pending. -/
def s15 : DState :=
  runSteps (txnInit idleState) (samplesEB.take 15)

/-! ### Structural lemmas about the clock loop -/

theorem step_clock_count (s : DState) (p : Sample) :
    (step s p).clock_count = s.clock_count + 1 := by
  unfold step
  dsimp only
  repeat' split
  all_goals rfl

theorem step_continuous_frozen (s : DState) (p : Sample)
    (h : s.clock_count ≠ 15 ∨ CONTINUE_COMMANDS s.command = none) :
    (step s p).continuous = s.continuous := by
  unfold step
  dsimp only
  repeat' split
  all_goals first
    | rfl
    | (rcases h with h | h <;> simp_all)

theorem txnInit_clock_count (s : DState) : (txnInit s).clock_count = 0 := rfl

theorem txnInit_continuous (s : DState) :
    (txnInit s).continuous = s.continuous := by
  unfold txnInit txnStart
  dsimp only
  split
  all_goals rfl

theorem runSteps_cons (s : DState) (p : Sample) (l : List Sample) :
    runSteps s (p :: l) = runSteps (step s p) l := rfl

theorem runSteps_append (s : DState) (l1 l2 : List Sample) :
    runSteps s (l1 ++ l2) = runSteps (runSteps s l1) l2 :=
  List.foldl_append step s l1 l2

theorem runSteps_clock_count (l : List Sample) :
    ∀ s : DState, (runSteps s l).clock_count = s.clock_count + l.length := by
  induction l with
  | nil => intro s; rfl
  | cons p l ih =>
    intro s
    rw [runSteps_cons, ih, step_clock_count, List.length_cons]
    omega

theorem runSteps_continuous_low (l : List Sample) :
    ∀ s : DState, s.clock_count + l.length ≤ 15 →
      (runSteps s l).continuous = s.continuous := by
  induction l with
  | nil => intro s _; rfl
  | cons p l ih =>
    intro s h
    rw [List.length_cons] at h
    rw [runSteps_cons, ih _ (by rw [step_clock_count]; omega),
        step_continuous_frozen s p (Or.inl (by omega))]

theorem runSteps_continuous_high (l : List Sample) :
    ∀ s : DState, 16 ≤ s.clock_count →
      (runSteps s l).continuous = s.continuous := by
  induction l with
  | nil => intro s _; rfl
  | cons p l ih =>
    intro s h
    rw [runSteps_cons, ih _ (by rw [step_clock_count]; omega),
        step_continuous_frozen s p (Or.inl (by omega))]

/-- Before the quad start point and away from a byte boundary, a step
only shifts the bit accumulators and advances the clock. -/
theorem step_idle (s : DState) (p : Sample) (hq : s.quad_start = none)
    (h8 : s.clock_count % 8 ≠ 7) :
    step s p = { s with mosi_out := s.mosi_out <<< 1 ||| p.mosi,
                        miso_in := s.miso_in <<< 1 ||| p.miso,
                        clock_count := s.clock_count + 1 } := by
  simp [step, hq, h8]

/-- A run of fewer than 8 clock edges from the start of a fresh command
phase completes no byte: both byte sequences are left untouched. -/
theorem runSteps_idle_low (l : List Sample) :
    ∀ s : DState, s.quad_start = none → s.clock_count + l.length ≤ 7 →
      (runSteps s l).mosi_data = s.mosi_data ∧
      (runSteps s l).miso_data = s.miso_data := by
  induction l with
  | nil => exact fun s _ _ => ⟨rfl, rfl⟩
  | cons p l ih =>
    intro s hq hlen
    rw [List.length_cons] at hlen
    have h8 : s.clock_count % 8 ≠ 7 := by omega
    rw [runSteps_cons, step_idle s p hq h8]
    exact ih _ hq (by simpa using by omega)

/-- The dummy-window step at clock count 15 for a continue command: the
byte lands in the MOSI sequence and the continuation-signature check of
source lines 198-205 writes the continuous-read flag. -/
theorem step_check15 (s : DState) (p : Sample) (hc : s.clock_count = 15)
    (hq : s.quad_start = some 8)
    (hcm : (CONTINUE_COMMANDS s.command).isSome = true) :
    step s p =
      { s with
        mosi_data := s.mosi_data ++ [s.quad_data <<< 4 ||| (quadBits p &&& 0xf)],
        miso_data := s.miso_data ++ [0],
        continuous :=
          decide ((s.quad_data <<< 4 ||| (quadBits p &&& 0xf)) &&& 0xf0 = 0xa0),
        quad_data := 0,
        clock_count := s.clock_count + 1 } := by
  simp [step, hc, hq, hcm]

/-- For a byte assembled as high nibble `a` and low nibble `n`, the
source's mask test `byte &&& 0xf0 = 0xa0` says exactly that the high
nibble is 0xA, and `byte / 16` recovers that nibble. -/
theorem hi_nibble_facts (a n : Nat) (ha : a < 16) (hn : n ≤ 15) :
    ((a <<< 4 ||| n) &&& 0xf0 = 0xa0 ↔ a = 10) ∧ (a <<< 4 ||| n) / 16 = a := by
  interval_cases a <;> interval_cases n <;> decide

theorem headD_eq_of_head (l : List Nat) (c : Nat) (h : l.head? = some c) :
    l.headD 0 = c := by
  cases l with
  | nil => simp at h
  | cons a t => simp at h ⊢; exact h

/-- Whatever `interpret` emits, it is a single transaction annotation of
class 6 (data command) or 7 (error) carrying the message it stored, or
nothing at all; in particular no per-byte event is ever produced. -/
theorem interpret_ok_events (ss es : Nat) (s : DState) (r : DState × List Event)
    (h : interpret ss es s = Except.ok r) :
    r.2 = [] ∨ r.2 = [Event.outAnn ss es 6 [r.1.message]] ∨
      r.2 = [Event.outAnn ss es 7 [r.1.message]] := by
  unfold interpret at h
  dsimp only at h
  repeat' split at h
  all_goals first
    | (cases h; simp)
    | simp_all

/-- `interpret` never writes the continuous-read flag. -/
theorem interpret_ok_continuous (ss es : Nat) (s : DState)
    (r : DState × List Event) (h : interpret ss es s = Except.ok r) :
    r.1.continuous = s.continuous := by
  unfold interpret at h
  dsimp only at h
  repeat' split at h
  all_goals first
    | (cases h; rfl)
    | simp_all

/-- `interpret` leaves the address width and its derived format width
unchanged unless the command byte is `EN4B` or `EX4B`. -/
theorem interpret_ok_addr_fields (ss es : Nat) (s : DState) (c : Nat)
    (r : DState × List Event) (hc : s.mosi_data.headD 0 = c)
    (h1 : c ≠ EN4B) (h2 : c ≠ EX4B)
    (h : interpret ss es s = Except.ok r) :
    r.1.address_bytes = s.address_bytes ∧
    r.1.address_format_width = s.address_format_width := by
  unfold interpret at h
  rw [hc] at h
  dsimp only at h
  repeat' split at h
  all_goals first
    | (cases h; exact ⟨rfl, rfl⟩)
    | simp_all

/-- The two overhead-relevant data-command names pick out exactly the
command bytes 0x0B and 0xEB. -/
theorem data_commands_name_cases (c : Nat) (nm : String)
    (h : DATA_COMMANDS c = some nm) :
    (nm = "Fast Read" ↔ c = 0x0b) ∧ (nm = "Quad Read" ↔ c = 0xeb) := by
  unfold DATA_COMMANDS at h
  repeat' split at h
  all_goals first
    | (injection h with hnm; subst hnm; rename_i hck; subst hck; decide)
    | simp_all

/-! ### Claim theorems -/

/-- C1 (amended): for every completed transaction whose first MOSI byte
is not a data command, the interpreter computes a message — the command's
human-readable name when the byte is a recognized control command,
otherwise the byte rendered as an uppercase hexadecimal literal — but
emits NO annotation event: the final `self.put` of source line 253 is
guarded by `output_type != 5`, which excludes the whole control
category. -/
theorem control_txn_message_without_event (ss es : Nat) (s : DState) (c : Nat)
    (h1 : s.mosi_data.head? = some c) (h2 : DATA_COMMANDS c = none) :
    (interpret ss es s).map (fun r => (r.2, r.1.message)) =
      Except.ok ([],
        match CONTROL_COMMANDS c with
        | some nm => nm
        | none => "0x" ++ natToHexUpper c) := by
  have hcmd := headD_eq_of_head _ _ h1
  unfold interpret
  dsimp only
  rw [hcmd, h2]
  dsimp only [Except.map]
  repeat' split
  all_goals rfl

/-- C1 (witness): a Write Enable (0x06) transaction computes the message
"Write Enable" yet produces no annotation event. -/
theorem control_txn_message_without_event_witness :
    ({ idleState with mosi_data := [0x06], miso_data := [0] } : DState).mosi_data.head?
        = some 0x06 ∧
    DATA_COMMANDS 0x06 = none ∧
    (interpret 0 1 { idleState with mosi_data := [0x06], miso_data := [0] }).map
        (fun r => (r.2, r.1.message)) = Except.ok ([], "Write Enable") := by
  refine ⟨rfl, by decide, ?_⟩
  exact control_txn_message_without_event 0 1
    { idleState with mosi_data := [0x06], miso_data := [0] } 0x06 rfl (by decide)

/-- C1 (counterexample): the claim as stated is false on the code: the
completed Write Enable (0x06) transaction emits no Control-category
annotation event at all — interpretation produces an empty event list. -/
theorem control_txn_no_event_cx :
    (interpret 0 1 { idleState with mosi_data := [0x06], miso_data := [0] }).map
        Prod.snd = Except.ok [] := by
  decide

/-- C2 (the code at the failing input): with filter `[0, 0x1fff]`, an
in-filter Read at 0x1000 emits its annotation and assigns the
loop-persistent locals; a following Read at 0x3000 — OUTSIDE the filter —
is not suppressed: because source line 237 sits outside the `if` of line
226, it still emits a data-command annotation whose text is rebuilt from
the previous transaction's stale locals; and a fresh out-of-filter Read
with no earlier in-filter transaction raises `NameError`. -/
theorem out_of_filter_not_suppressed :
    (interpret 0 1 inFilterTxn).map Prod.snd =
      Except.ok [Event.outAnn 0 1 6 ["Read 0x001000 - 0x001003 (4 data bytes)"]] ∧
    (interpret 2 3 outOfFilterTxn).map Prod.snd =
      Except.ok [Event.outAnn 2 3 6 ["Read 0x001000 - 0x001003 (4 data bytes)"]] ∧
    interpret 4 5
        { filterState with
          mosi_data := [0x03, 0x00, 0x30, 0x00, 5, 6, 7, 8],
          miso_data := [0, 0, 0, 0, 0, 0, 0, 0] } =
      Except.error "NameError" := by
  exact ⟨by decide, by decide, by decide⟩

/-- C3 (the code at the failing input): after the quad-read transaction
`samplesEB` switches continuous-read mode on, the next chip-select window
pre-seeds the byte sequences with the carried command byte 0xEB (source
lines 160-161) and line 159 sets the clock count to 8 — but line 164
unconditionally resets it to 0, so the first eight clock edges of the new
window are decoded as a fresh single-bit command phase and `_command` is
overwritten with the byte they spell (here 0x03) instead of being
reused. -/
theorem continuous_window_restarts_command_phase :
    contState.continuous = true ∧
    contState.command = 0xEB ∧
    contState.quad_start = some 8 ∧
    (txnStart contState).clock_count = 8 ∧
    (txnStart contState).mosi_data = [0xEB] ∧
    (txnStart contState).miso_data = [0] ∧
    (txnInit contState).clock_count = 0 ∧
    (runTransaction contState (cmdSamples 0x03)).command = 0x03 ∧
    (runTransaction contState (cmdSamples 0x03)).mosi_data = [0xEB, 0x03] := by
  decide

/-- C5 (amended): the `put_bytes` helper, when invoked, emits exactly two
binary values (MISO byte then MOSI byte) tagged with the byte's start and
end sample times, a python-channel tuple, and a two-hex-digit textual
rendering of each; but `decode` never invokes it (all three call sites
are commented out), so the events of a decoded transaction never include
a per-byte event — each is a transaction annotation of class 6 or 7. -/
theorem put_bytes_shape_and_no_byte_events :
    (∀ ss es mosi miso, put_bytes ss es mosi miso =
      [Event.binary ss es 0 miso, Event.binary ss es 1 mosi,
       Event.pythonData ss es miso mosi,
       Event.outAnn ss es 0 [hexByte miso],
       Event.outAnn ss es 1 [hexByte mosi]]) ∧
    (∀ ss es s l r, decodeTransaction ss es s l = Except.ok r →
      ∀ e ∈ r.2, e = Event.outAnn ss es 6 [r.1.message] ∨
        e = Event.outAnn ss es 7 [r.1.message]) := by
  refine ⟨fun ss es mosi miso => rfl, ?_⟩
  intro ss es s l r h e he
  unfold decodeTransaction at h
  dsimp only at h
  split at h
  · cases h; simp at he
  · rcases interpret_ok_events ss es _ r h with h0 | h0 | h0
    · rw [h0] at he; simp at he
    · rw [h0] at he; simp at he; exact Or.inl he
    · rw [h0] at he; simp at he; exact Or.inr he

/-- C5 (witness): `put_bytes` at a concrete byte pair, and the single
event of a concrete decoded transaction being a class-7 annotation. -/
theorem put_bytes_shape_and_no_byte_events_witness :
    put_bytes 1 2 0xAB 0xCD =
      [Event.binary 1 2 0 0xCD, Event.binary 1 2 1 0xAB,
       Event.pythonData 1 2 0xCD 0xAB,
       Event.outAnn 1 2 0 ["CD"], Event.outAnn 1 2 1 ["AB"]] ∧
    decodeTransaction 0 1 contState [] = Except.ok contEmptyResult ∧
    Event.outAnn 0 1 7 ["Error!"] ∈ contEmptyResult.2 ∧
    (Event.outAnn 0 1 7 ["Error!"] =
        Event.outAnn 0 1 6 [contEmptyResult.1.message] ∨
      Event.outAnn 0 1 7 ["Error!"] =
        Event.outAnn 0 1 7 [contEmptyResult.1.message]) := by
  refine ⟨put_bytes_shape_and_no_byte_events.1 1 2 0xAB 0xCD, by decide, by decide, ?_⟩
  exact put_bytes_shape_and_no_byte_events.2 0 1 contState [] contEmptyResult
    (by decide) _ (by decide)

/-- C5 (counterexample): the claim as stated is false on the code: a full
8-edge transaction assembles the byte 0x06 into the MOSI sequence, yet
decoding emits no per-byte event whatsoever (here no event at all). -/
theorem assembled_byte_without_byte_events_cx :
    (runTransaction idleState (cmdSamples 0x06)).mosi_data = [0x06] ∧
    (decodeTransaction 0 99 idleState (cmdSamples 0x06)).map Prod.snd =
      Except.ok [] := by
  decide

/-- C7: a data-command transaction with fewer than `1 + address_bytes`
MOSI bytes yields exactly one Error-category (class 7) annotation with
the generic message "Error!", and leaves the session state — address
width, address format width, filter bounds, continuous flag —
untouched. -/
theorem truncated_data_txn_error (ss es : Nat) (s : DState) (c : Nat)
    (nm : String) (h1 : s.mosi_data.head? = some c)
    (h2 : DATA_COMMANDS c = some nm)
    (h3 : s.mosi_data.length < 1 + s.address_bytes) :
    (interpret ss es s).map
        (fun r => (r.2, r.1.address_bytes, r.1.address_format_width,
          r.1.min_address, r.1.max_address, r.1.continuous)) =
      Except.ok ([Event.outAnn ss es 7 ["Error!"]], s.address_bytes,
        s.address_format_width, s.min_address, s.max_address,
        s.continuous) := by
  have hcmd := headD_eq_of_head _ _ h1
  unfold interpret
  dsimp only
  rw [hcmd, h2]
  dsimp only
  rw [if_pos h3]
  rfl

/-- C7 (witness): a Read command followed by a single address byte
(2 < 1 + 3 MOSI bytes) produces the Error! annotation and preserves the
session fields. -/
theorem truncated_data_txn_error_witness :
    truncTxn.mosi_data.head? = some 0x03 ∧
    DATA_COMMANDS 0x03 = some "Read" ∧
    truncTxn.mosi_data.length < 1 + truncTxn.address_bytes ∧
    (interpret 0 1 truncTxn).map
        (fun r => (r.2, r.1.address_bytes, r.1.address_format_width,
          r.1.min_address, r.1.max_address, r.1.continuous)) =
      Except.ok ([Event.outAnn 0 1 7 ["Error!"]], truncTxn.address_bytes,
        truncTxn.address_format_width, truncTxn.min_address,
        truncTxn.max_address, truncTxn.continuous) := by
  exact ⟨rfl, by decide, by decide,
    truncated_data_txn_error 0 1 truncTxn 0x03 "Read" rfl (by decide) (by decide)⟩

/-- C9 (amended): a chip-select window with fewer than eight clock edges
completes no byte, so when continuous-read mode is INACTIVE both byte
sequences stay empty and the transaction is silently skipped: no
interpretation, no annotation event.  (When continuous-read mode is
active the pre-seeded command byte makes the sequences non-empty, so the
window IS interpreted; see the counterexample.) -/
theorem empty_window_skipped_unless_continuous (ss es : Nat) (s : DState)
    (l : List Sample) (hc : s.continuous = false) (hl : l.length < 8) :
    decodeTransaction ss es s l = Except.ok (runTransaction s l, []) := by
  have h0 : (txnInit s).quad_start = none ∧ (txnInit s).miso_data = [] := by
    simp [txnInit, txnStart, hc]
  have hm : (runTransaction s l).miso_data = [] := by
    unfold runTransaction
    have h := runSteps_idle_low l (txnInit s) h0.1
      (by rw [txnInit_clock_count]; omega)
    rw [h.2, h0.2]
  unfold decodeTransaction
  dsimp only
  rw [if_pos (Or.inl hm)]

/-- C9 (witness): a zero-edge window from the freshly reset (inactive)
state is skipped with no annotation. -/
theorem empty_window_skipped_unless_continuous_witness :
    idleState.continuous = false ∧ ([] : List Sample).length < 8 ∧
    decodeTransaction 5 6 idleState [] =
      Except.ok (runTransaction idleState [], []) :=
  ⟨rfl, by decide,
    empty_window_skipped_unless_continuous 5 6 idleState [] rfl (by decide)⟩

/-- C9 (counterexample): the claim as stated ("regardless of whether
continuous-read mode is active") is false on the code: with
continuous-read mode active, a chip-select window with zero clocked bytes
is pre-seeded with the carried command byte, so it IS interpreted and —
the carried 0xEB being a data command now truncated — emits an Error
annotation. -/
theorem continuous_empty_window_emits_error_cx :
    contState.continuous = true ∧
    (decodeTransaction 0 1 contState []).map Prod.snd =
      Except.ok [Event.outAnn 0 1 7 ["Error!"]] := by
  decide

/-- C4: a data-command transaction with at least `1 + address_bytes` MOSI
bytes and an in-filter start address emits exactly one class-6 annotation
whose message is `"<name> 0x<start> - 0x<end> (<N> data bytes)"`: the
start address is the big-endian integer of the address-width bytes after
the command byte, `N` is the total MOSI byte count minus the address
width minus the overhead (the command byte, plus one dummy byte for Fast
Read 0x0B and two for Quad Read 0xEB — the first conjunct ties those
names to those bytes), the end address is `start + N - 1`, and both
addresses are zero-padded lowercase hexadecimal of field width
`2 * address_bytes`. -/
theorem data_txn_message_format (ss es : Nat) (s : DState) (c : Nat) (nm : String)
    (h1 : s.mosi_data.head? = some c) (h2 : DATA_COMMANDS c = some nm)
    (h3 : 1 + s.address_bytes ≤ s.mosi_data.length)
    (hw : s.address_format_width = 2 * s.address_bytes)
    (h4 : s.min_address ≤ frameAddress s.address_bytes s.mosi_data)
    (h5 : frameAddress s.address_bytes s.mosi_data ≤ s.max_address) :
    ((nm = "Fast Read" ↔ c = 0x0b) ∧ (nm = "Quad Read" ↔ c = 0xeb)) ∧
    (interpret ss es s).map Prod.snd =
      Except.ok [Event.outAnn ss es 6
        [nm ++ " 0x" ++
            pyHexPad (2 * s.address_bytes)
              (frameAddress s.address_bytes s.mosi_data : Int) ++
          " - 0x" ++
            pyHexPad (2 * s.address_bytes)
              ((frameAddress s.address_bytes s.mosi_data : Int) +
                dataByteCount s nm - 1) ++
          " (" ++ toString (dataByteCount s nm) ++ " data bytes)"]] := by
  refine ⟨data_commands_name_cases c nm h2, ?_⟩
  have hcmd := headD_eq_of_head _ _ h1
  unfold interpret
  dsimp only
  rw [hcmd, h2]
  dsimp only
  rw [if_neg (by omega), if_pos ⟨h4, h5⟩]
  dsimp only [Except.map]
  rw [hw]
  simp only [dataByteCount, overheadBytes]

/-- C4 (witness): the claim's own example — address width 3, command
0x03 with address bytes 0x00 0x10 0x00 and four data bytes — yields
"Read 0x001000 - 0x001003 (4 data bytes)". -/
theorem data_txn_message_format_witness :
    readTxn.mosi_data.head? = some 0x03 ∧
    DATA_COMMANDS 0x03 = some "Read" ∧
    1 + readTxn.address_bytes ≤ readTxn.mosi_data.length ∧
    readTxn.address_format_width = 2 * readTxn.address_bytes ∧
    readTxn.min_address ≤ frameAddress readTxn.address_bytes readTxn.mosi_data ∧
    frameAddress readTxn.address_bytes readTxn.mosi_data ≤ readTxn.max_address ∧
    (interpret 0 1 readTxn).map Prod.snd =
      Except.ok [Event.outAnn 0 1 6
        ["Read 0x001000 - 0x001003 (4 data bytes)"]] := by
  refine ⟨rfl, by decide, by decide, rfl, by decide, by decide, ?_⟩
  exact ((data_txn_message_format 0 1 readTxn 0x03 "Read" rfl (by decide) (by decide)
    rfl (by decide) (by decide)).2).trans (by decide)

/-- C6: a transaction whose command byte is 0xB7 (`EN4B`) sets the
session address width to 4 and its format width to 8 hex digits, one
whose command byte is 0xE9 (`EX4B`) sets them to 3 and 6, and every
other command byte leaves both fields unchanged, so a toggle stays in
force for all strictly later transactions until toggled again; the
triggering transaction itself emits no annotation at all (so the
mutation is never visible in its own annotation); and concretely, a Read
decoded after an EN4B transaction renders its addresses with 8 hex
digits. -/
theorem addr_width_toggle_effects :
    (∀ ss es : Nat, ∀ s : DState, s.mosi_data.head? = some EN4B →
      (interpret ss es s).map
          (fun r => (r.1.address_bytes, r.1.address_format_width, r.2)) =
        Except.ok (4, 8, [])) ∧
    (∀ ss es : Nat, ∀ s : DState, s.mosi_data.head? = some EX4B →
      (interpret ss es s).map
          (fun r => (r.1.address_bytes, r.1.address_format_width, r.2)) =
        Except.ok (3, 6, [])) ∧
    (∀ ss es : Nat, ∀ s : DState, ∀ c : Nat, ∀ r : DState × List Event,
      s.mosi_data.head? = some c → c ≠ EN4B → c ≠ EX4B →
      interpret ss es s = Except.ok r →
      r.1.address_bytes = s.address_bytes ∧
      r.1.address_format_width = s.address_format_width) ∧
    ((interpret 0 1 en4bTxn).map
        (fun r => (r.1.address_bytes, r.1.address_format_width,
          r.1.message, r.2)) =
      Except.ok (4, 8, "Enable 4 Byte Address", [])) ∧
    ((interpret 2 3 readAfterEN4B).map Prod.snd =
      Except.ok [Event.outAnn 2 3 6
        ["Read 0x00001000 - 0x00001000 (1 data bytes)"]]) := by
  refine ⟨?_, ?_, ?_, by decide, by decide⟩
  · intro ss es s h
    have hcmd := headD_eq_of_head _ _ h
    unfold interpret
    dsimp only
    rw [hcmd, show DATA_COMMANDS EN4B = none from by decide]
    dsimp only [Except.map]
    rw [if_pos rfl]
  · intro ss es s h
    have hcmd := headD_eq_of_head _ _ h
    unfold interpret
    dsimp only
    rw [hcmd, show DATA_COMMANDS EX4B = none from by decide]
    dsimp only [Except.map]
    rw [if_neg (by decide), if_pos rfl]
  · intro ss es s c r h hn1 hn2 hok
    exact interpret_ok_addr_fields ss es s c r (headD_eq_of_head _ _ h) hn1 hn2 hok

/-- C6 (witness): the toggle theorem at the concrete EN4B and EX4B
transactions and at a non-toggle command (0x03). -/
theorem addr_width_toggle_effects_witness :
    en4bTxn.mosi_data.head? = some EN4B ∧
    (interpret 0 1 en4bTxn).map
        (fun r => (r.1.address_bytes, r.1.address_format_width, r.2)) =
      Except.ok (4, 8, []) ∧
    ({ idleState with mosi_data := [EX4B], miso_data := [0] } : DState).mosi_data.head?
        = some EX4B ∧
    (interpret 0 1 { idleState with mosi_data := [EX4B], miso_data := [0] }).map
        (fun r => (r.1.address_bytes, r.1.address_format_width, r.2)) =
      Except.ok (3, 6, []) ∧
    interpret 0 1 inFilterTxn = Except.ok interpInFilter ∧
    (interpInFilter.1.address_bytes = inFilterTxn.address_bytes ∧
      interpInFilter.1.address_format_width = inFilterTxn.address_format_width) := by
  refine ⟨rfl, addr_width_toggle_effects.1 0 1 en4bTxn rfl, rfl,
    addr_width_toggle_effects.2.1 0 1 _ rfl, by decide, ?_⟩
  exact addr_width_toggle_effects.2.2.1 0 1 inFilterTxn 0x03 interpInFilter rfl
    (by decide) (by decide) (by decide)

/-- C8: at clock position 15 (quad start 8 plus 7) of a transaction whose
command register holds a continue command, the step appends the
just-assembled quad byte and writes the continuous-read flag: the flag
becomes true exactly when the byte's high nibble — `quad_data`, the
nibble sampled at clock 14, recovered by `byte / 16` — equals 0xA, and
false otherwise; the flag is then frozen for the rest of the transaction
(clock counts above 15 never touch it) and no step before position 15
touches it either, so the check runs exactly once per such
transaction. -/
theorem continuation_check_at_clock15 (s : DState) (p : Sample)
    (hc : s.clock_count = 15) (hq : s.quad_start = some 8)
    (hcm : (CONTINUE_COMMANDS s.command).isSome = true)
    (hqd : s.quad_data < 16) :
    (step s p).mosi_data =
      s.mosi_data ++ [s.quad_data <<< 4 ||| (quadBits p &&& 0xf)] ∧
    (s.quad_data <<< 4 ||| (quadBits p &&& 0xf)) / 16 = s.quad_data ∧
    ((step s p).continuous = true ↔ s.quad_data = 0xa) ∧
    (∀ rest, (runSteps (step s p) rest).continuous = (step s p).continuous) ∧
    (∀ t : DState, ∀ q : Sample, t.clock_count < 15 →
      (step t q).continuous = t.continuous) := by
  have hb := hi_nibble_facts s.quad_data (quadBits p &&& 0xf) hqd
    Nat.and_le_right
  rw [step_check15 s p hc hq hcm]
  refine ⟨rfl, hb.2, ?_, ?_, ?_⟩
  · show decide _ = true ↔ _
    rw [decide_eq_true_eq]
    exact hb.1
  · intro rest
    apply runSteps_continuous_high
    show 16 ≤ s.clock_count + 1
    omega
  · intro t q ht
    exact step_continuous_frozen t q (Or.inl (by omega))

/-- C8 (witness): the check at the concrete state 15 clock edges into
`samplesEB`, where the pending nibble is 0xA: the flag turns on and stays
on through a further step. -/
theorem continuation_check_at_clock15_witness :
    (s15.clock_count = 15 ∧ s15.quad_start = some 8 ∧
      (CONTINUE_COMMANDS s15.command).isSome = true ∧ s15.quad_data < 16) ∧
    ((step s15 (sample1 0)).continuous = true ↔ s15.quad_data = 0xa) ∧
    (runSteps (step s15 (sample1 0)) [sample1 1]).continuous =
      (step s15 (sample1 0)).continuous := by
  refine ⟨⟨by decide, by decide, by decide, by decide⟩, ?_, ?_⟩
  · exact (continuation_check_at_clock15 s15 (sample1 0) (by decide) (by decide)
      (by decide) (by decide)).2.2.1
  · exact (continuation_check_at_clock15 s15 (sample1 0) (by decide) (by decide)
      (by decide) (by decide)).2.2.2.1 [sample1 1]

/-- C10: the continuous-read flag is written only at decoder reset
(to false) and by the step at clock count 15 whose command register holds
a continue command (0x6B, 0xE7 or 0xEB): every other step, the
transaction setup and the command interpreter leave it unchanged; hence
a transaction that deasserts chip-select within 15 clock edges, and one
whose command register at the position-15 step holds no continue
command, leave the flag exactly as it was — once set it persists until a
continue-command check clears it. -/
theorem continuous_flag_write_sites :
    (∀ ab mn mx : Nat, (resetState ab mn mx).continuous = false) ∧
    (∀ s : DState, ∀ p : Sample,
      s.clock_count ≠ 15 ∨ CONTINUE_COMMANDS s.command = none →
      (step s p).continuous = s.continuous) ∧
    (∀ s : DState, (txnInit s).continuous = s.continuous) ∧
    (∀ ss es : Nat, ∀ s : DState, ∀ r : DState × List Event,
      interpret ss es s = Except.ok r → r.1.continuous = s.continuous) ∧
    (∀ s : DState, ∀ l : List Sample, l.length ≤ 15 →
      (runTransaction s l).continuous = s.continuous) ∧
    (∀ s : DState, ∀ l : List Sample,
      CONTINUE_COMMANDS ((runSteps (txnInit s) (l.take 15)).command) = none →
      (runTransaction s l).continuous = s.continuous) := by
  refine ⟨fun ab mn mx => rfl, fun s p h => step_continuous_frozen s p h,
    txnInit_continuous, fun ss es s r h => interpret_ok_continuous ss es s r h,
    ?_, ?_⟩
  · intro s l hl
    unfold runTransaction
    rw [runSteps_continuous_low l (txnInit s)
          (by rw [txnInit_clock_count]; omega),
        txnInit_continuous]
  · intro s l hnone
    by_cases hlen : l.length ≤ 15
    · unfold runTransaction
      rw [runSteps_continuous_low l (txnInit s)
            (by rw [txnInit_clock_count]; omega),
          txnInit_continuous]
    · push_neg at hlen
      obtain ⟨p, rest, hdrop⟩ : ∃ p rest, l.drop 15 = p :: rest := by
        cases hd : l.drop 15 with
        | nil =>
          exfalso
          have hld := List.drop_eq_nil_iff.mp hd
          omega
        | cons p rest => exact ⟨p, rest, rfl⟩
      have hmc : (runSteps (txnInit s) (l.take 15)).clock_count = 15 := by
        rw [runSteps_clock_count, txnInit_clock_count, List.length_take]
        omega
      unfold runTransaction
      conv_lhs => rw [show l = l.take 15 ++ (p :: rest) by
        rw [← hdrop]; exact (List.take_append_drop 15 l).symm]
      rw [runSteps_append, runSteps_cons,
          runSteps_continuous_high rest _ (by rw [step_clock_count, hmc]),
          step_continuous_frozen _ p (Or.inr hnone),
          runSteps_continuous_low (l.take 15) (txnInit s)
            (by rw [txnInit_clock_count, List.length_take]; omega),
          txnInit_continuous]

/-- C10 (witness): the write-site characterization at concrete inputs:
reset gives false, a step away from position 15 and the transaction
setup preserve the flag, the interpreter preserves it, and a short
window and a non-continue transaction preserve it. -/
theorem continuous_flag_write_sites_witness :
    (resetState 3 0 0xffffffff).continuous = false ∧
    (idleState.clock_count ≠ 15 ∨ CONTINUE_COMMANDS idleState.command = none) ∧
    (step idleState (sample1 0)).continuous = idleState.continuous ∧
    (txnInit contState).continuous = contState.continuous ∧
    (interpret 0 1 inFilterTxn = Except.ok interpInFilter ∧
      interpInFilter.1.continuous = inFilterTxn.continuous) ∧
    (runTransaction idleState []).continuous = idleState.continuous ∧
    (CONTINUE_COMMANDS
        ((runSteps (txnInit idleState) ((cmdSamples 0x06).take 15)).command) =
        none ∧
      (runTransaction idleState (cmdSamples 0x06)).continuous =
        idleState.continuous) := by
  refine ⟨continuous_flag_write_sites.1 3 0 0xffffffff,
    Or.inl (by decide),
    continuous_flag_write_sites.2.1 idleState (sample1 0) (Or.inl (by decide)),
    continuous_flag_write_sites.2.2.1 contState,
    ⟨by decide, continuous_flag_write_sites.2.2.2.1 0 1 inFilterTxn
      interpInFilter (by decide)⟩,
    continuous_flag_write_sites.2.2.2.2.1 idleState [] (by decide),
    ⟨by decide, continuous_flag_write_sites.2.2.2.2.2 idleState
      (cmdSamples 0x06) (by decide)⟩⟩

end XSpiFlash
